import Mathlib

/-!
Shallow embedding of `server/drivers/hd44780-gpio.c` (lcdproc GPIO connection
type for HD44780 LCDs driven over the Linux sysfs GPIO interface).

The driver is modelled as follows.

* `setGpio` models `SET_GPIO` of hd44780-gpio.c: writes the string "1" to the pin's
  value file when its `uint value` argument is nonzero and "0" otherwise.
  We keep both the written string (`setGpioStr`) and the resulting logic
  level (`setGpioLevel`).
* `lcdgpio_HD44780_senddata` is modelled as the trace of pin writes and
  `uPause` calls it performs, in source order (`Event`); the electrical
  state of the lines after a prefix of the trace is obtained by folding the
  writes over a `PinState`.
* `setup_gpio_pin`, `close_gpio_pin` and `hd_init_gpio` interact with the
  filesystem; the environment (which `fopen` calls succeed) is passed in
  explicitly and the functions return their observable outcome, with an
  `undef` outcome for the paths where the C code passes a NULL `FILE *` to
  `fprintf`/`fclose` (undefined behavior).

The constants `RS_INSTR`/`RS_DATA` and `BACKLIGHT_ON` come from
`hd44780-low.h`, which is not part of this repository's sources; the byte
`flags` is only ever compared against `RS_INSTR` (everything else is treated
as data), so it is modelled by the two-valued `Mode`, and the backlight
`state` by the Boolean `state == BACKLIGHT_ON`.
-/

namespace HD44780Gpio

/-- Logical pin roles, the fields of `struct gpio_map` in hd44780-gpio.h. -/
inductive Role where
  | en
  | en2
  | rs
  | d7
  | d6
  | d5
  | d4
  | backlight
deriving DecidableEq, Repr

/-- The register-select mode: the C code tests `flags == RS_INSTR` and treats
every other flag value as data. -/
inductive Mode where
  | instr
  | data
deriving DecidableEq, Repr

/-- The string `setGpio` writes to the pin's value file:
`if(value) fprintf(pin->fd, "1"); else fprintf(pin->fd, "0");`. -/
def setGpioStr (value : Nat) : String :=
  if value ≠ 0 then "1" else "0"

/-- The logic level resulting from `setGpio`: high iff `value` is nonzero. -/
def setGpioLevel (value : Nat) : Bool :=
  value ≠ 0

/-- One observable step of the transmission engine: a `SET_GPIO` call on a
role, or a `uPause` of the given number of microseconds. -/
inductive Event where
  | set (r : Role) (level : Bool)
  | pause (usec : Nat)
deriving DecidableEq, Repr

/-- A `SET_GPIO(&pin, value)` call as a trace event (the level is the
normalized `value`). -/
def setGpio (r : Role) (value : Nat) : Event :=
  .set r (setGpioLevel value)

/-- `if (flags == RS_INSTR) SET_GPIO(rs, 0); else SET_GPIO(rs, 1);` -/
def rsSeg (m : Mode) : List Event :=
  match m with
  | .instr => [setGpio .rs 0]
  | .data => [setGpio .rs 1]

/-- `/* Clear data lines ready for nibbles */` : the four `SET_GPIO(dX, 0)`
calls. -/
def clearSeg : List Event :=
  [setGpio .d7 0, setGpio .d6 0, setGpio .d5 0, setGpio .d4 0]

/-- `/* Output upper nibble first */` : masks 0x80, 0x40, 0x20, 0x10 onto
D7..D4. -/
def highSeg (ch : Nat) : List Event :=
  [setGpio .d7 (ch &&& 0x80), setGpio .d6 (ch &&& 0x40),
   setGpio .d5 (ch &&& 0x20), setGpio .d4 (ch &&& 0x10)]

/-- Lower nibble: masks 0x08, 0x04, 0x02, 0x01 onto D7..D4. -/
def lowSeg (ch : Nat) : List Event :=
  [setGpio .d7 (ch &&& 0x08), setGpio .d6 (ch &&& 0x04),
   setGpio .d5 (ch &&& 0x02), setGpio .d4 (ch &&& 0x01)]

/-- The two guarded enable writes at a given level:
`if (displayID == 1 || displayID == 0) SET_GPIO(en, v);`
`if (displayID == 2 || (p->numDisplays > 1 && displayID == 0)) SET_GPIO(en2, v);` -/
def enSeg (numDisplays displayID : Nat) (value : Nat) : List Event :=
  (if displayID = 1 ∨ displayID = 0 then [setGpio .en value] else []) ++
  (if displayID = 2 ∨ (numDisplays > 1 ∧ displayID = 0) then [setGpio .en2 value] else [])

/-- One enable pulse: drive high, pause, drive low, pause. -/
def pulseSeg (numDisplays displayID : Nat) : List Event :=
  enSeg numDisplays displayID 1 ++ [.pause 50] ++ enSeg numDisplays displayID 0 ++ [.pause 50]

/-- The trace of `lcdgpio_HD44780_senddata(p, displayID, flags, ch)`, in the
exact statement order of the C body: RS write; clear; pause; high nibble;
pause; enable pulse; clear; pause; low nibble; pause; enable pulse. -/
def lcdgpio_HD44780_senddata (numDisplays displayID : Nat) (m : Mode) (ch : Nat) :
    List Event :=
  rsSeg m ++
  clearSeg ++ [.pause 50] ++
  highSeg ch ++ [.pause 50] ++
  pulseSeg numDisplays displayID ++
  clearSeg ++ [.pause 50] ++
  lowSeg ch ++ [.pause 50] ++
  pulseSeg numDisplays displayID

/-- Electrical state of the seven transmission lines. -/
structure PinState where
  rs : Bool
  en : Bool
  en2 : Bool
  d7 : Bool
  d6 : Bool
  d5 : Bool
  d4 : Bool
deriving DecidableEq, Repr

/-- Effect of one event on the line state (a pause changes nothing). -/
def applyEvent (s : PinState) : Event → PinState
  | .set .rs b => { s with rs := b }
  | .set .en b => { s with en := b }
  | .set .en2 b => { s with en2 := b }
  | .set .d7 b => { s with d7 := b }
  | .set .d6 b => { s with d6 := b }
  | .set .d5 b => { s with d5 := b }
  | .set .d4 b => { s with d4 := b }
  | .set .backlight _ => s
  | .pause _ => s

/-- State of the lines after running a trace from state `s`. -/
def applyTrace (s : PinState) (tr : List Event) : PinState :=
  tr.foldl applyEvent s

/-- The four data lines of a state, D7 first. -/
def dataLines (s : PinState) : Bool × Bool × Bool × Bool :=
  (s.d7, s.d6, s.d5, s.d4)

/-- The writes a trace performs on one role, in order. -/
def writesTo (r : Role) (tr : List Event) : List Bool :=
  tr.filterMap fun e =>
    match e with
    | .set r' b => if r' = r then some b else none
    | .pause _ => none

/-! ## Pin lifecycle: `setup_gpio_pin`, `close_gpio_pin`, `hd_init_gpio`,
`lcdgpio_HD44780_close` -/

/-- Which of the three `fopen` calls of `setup_gpio_pin` succeed:
`/sys/class/gpio/export`, `gpio<num>/direction`, `gpio<num>/value`. -/
structure PinEnv where
  exportOk : Bool
  directionOk : Bool
  valueOk : Bool
deriving DecidableEq, Repr

/-- Observable outcome of `setup_gpio_pin`. -/
inductive SetupOutcome where
  /-- The function returned `-1` (export file could not be opened). -/
  | retErr
  /-- The function returned `0`; `fdOpen` records whether `gpio->fd` holds an
  open handle to the value file (`false` means a NULL handle was stored). -/
  | retOk (fdOpen : Bool)
  /-- Undefined behavior: `fprintf`/`fclose` on a NULL `FILE *` (the
  direction file failed to open and the code carries on regardless). -/
  | undef
deriving DecidableEq, Repr

/-- `setup_gpio_pin` (hd44780-gpio.c lines 72-110): opens `export`, returning
`-1` if that fails; writes the pin number; opens `direction` and — without
checking the result beyond printing a message — writes "low" to it; opens
`value`, stores the handle (checked only by a printed message) and returns
`0`. -/
def setup_gpio_pin (e : PinEnv) : SetupOutcome :=
  if ¬ e.exportOk then .retErr
  else if ¬ e.directionOk then .undef
  else .retOk e.valueOk

/-- Whether `setup_gpio_pin` claimed (exported) the pin: the write to the
`export` file happens exactly when that file opened. -/
def setupClaimed (e : PinEnv) : Bool :=
  e.exportOk

/-- Status of the `FILE *fd` field of a `gpio_pin`. -/
inductive FdStatus where
  /-- `fd` is NULL (the value file was never opened). -/
  | fdNull
  /-- `fd` is an open handle to the value file. -/
  | fdOpen
  /-- `fd` is a dangling pointer: it was `fclose`d but never reset to NULL. -/
  | fdStale
deriving DecidableEq, Repr

/-- Which of the two `fopen` calls of `close_gpio_pin` succeed:
`gpio<num>/direction` and `/sys/class/gpio/unexport`. -/
structure CloseEnv where
  directionOk : Bool
  unexportOk : Bool
deriving DecidableEq, Repr

/-- Observable steps of `close_gpio_pin`. -/
inductive CloseEvent where
  /-- "in" written to `gpio<num>/direction`: direction restored to input. -/
  | dirInput (r : Role)
  /-- `fclose(gpio->fd)`: the value handle closed. -/
  | closeFd (r : Role)
  /-- The pin number written to `unexport`: the pin released to the OS. -/
  | unexport (r : Role)
deriving DecidableEq, Repr

/-- `close_gpio_pin` (hd44780-gpio.c lines 112-135): opens `direction` and
writes "in" to it with the `fopen` result unchecked; `fclose`s `gpio->fd`
when it is non-NULL (leaving the field dangling); opens `unexport`, again
unchecked, and writes the pin number. `none` marks the undefined-behavior
paths: `fprintf`/`fclose` on a NULL handle, or `fclose` of an
already-closed handle. -/
def close_gpio_pin (r : Role) (e : CloseEnv) (fd : FdStatus) :
    Option (List CloseEvent × FdStatus) :=
  if ¬ e.directionOk then none
  else
    match fd with
    | .fdStale => none
    | .fdNull =>
      if ¬ e.unexportOk then none
      else some ([.dirInput r, .unexport r], .fdNull)
    | .fdOpen =>
      if ¬ e.unexportOk then none
      else some ([.dirInput r, .closeFd r, .unexport r], .fdStale)

/-- Display configuration facts read by the driver from `PrivateData`:
`p->numDisplays` and `p->have_backlight`. -/
structure Config where
  numDisplays : Nat
  haveBacklight : Bool
deriving DecidableEq, Repr

/-- The pins `hd_init_gpio` sets up, in its fixed source order: EN, RS, D7,
D6, D5, D4, then backlight when `have_backlight`, then EN2 when
`numDisplays > 1`. -/
def requiredRoles (cfg : Config) : List Role :=
  [.en, .rs, .d7, .d6, .d5, .d4] ++
  (if cfg.haveBacklight then [.backlight] else []) ++
  (if cfg.numDisplays > 1 then [.en2] else [])

/-- Overall outcome of `hd_init_gpio`. -/
inductive InitOutcome where
  /-- Returned `0`. -/
  | ok
  /-- Returned `-1` (fatal initialization error). -/
  | err
  /-- Undefined behavior inside a `setup_gpio_pin` call. -/
  | undef
deriving DecidableEq, Repr

/-- The acquisition loop of `hd_init_gpio`: call `setup_gpio_pin` on each
role in order; a `-1` return aborts the whole sequence with `-1`, with no
release of the pins claimed so far. Returns the outcome together with the
list of pins claimed (exported) during the run. -/
def acquireSeq (pins : Role → PinEnv) : List Role → InitOutcome × List Role
  | [] => (.ok, [])
  | r :: rest =>
    match setup_gpio_pin (pins r) with
    | .retErr => (.err, [])
    | .undef => (.undef, [r])
    | .retOk _ =>
      let (o, claimed) := acquireSeq pins rest
      (o, r :: claimed)

/-- `hd_init_gpio` (hd44780-gpio.c lines 171-265), acquisition part: after
the `malloc` of the pin map (whose failure returns `-1` with nothing
claimed), the required pins are set up in the fixed source order; any
`setup_gpio_pin` failure makes the whole initialization return `-1`
immediately, leaving earlier claimed pins claimed. -/
def hd_init_gpio (mallocOk : Bool) (cfg : Config) (pins : Role → PinEnv) :
    InitOutcome × List Role :=
  if ¬ mallocOk then (.err, [])
  else acquireSeq pins (requiredRoles cfg)

/-- `hd_init_gpio` registers the backlight callback
(`p->hd44780_functions->backlight = lcdgpio_HD44780_backlight;`, line 244)
only inside the `if (p->have_backlight)` block. -/
def backlightHookInstalled (cfg : Config) : Bool :=
  cfg.haveBacklight

/-- `lcdgpio_HD44780_close` (hd44780-gpio.c lines 143-163): close EN, RS,
D7, D6, D5, D4, then backlight when `have_backlight`, then EN2 when
`numDisplays > 1`. Each pin's environment and fd status are supplied per
role; the per-pin event lists are concatenated in call order, and `none`
propagates any per-pin undefined behavior. -/
def lcdgpio_HD44780_close (cfg : Config) (env : Role → CloseEnv)
    (fd : Role → FdStatus) : Option (List CloseEvent) :=
  ([Role.en, .rs, .d7, .d6, .d5, .d4] ++
   (if cfg.haveBacklight then [Role.backlight] else []) ++
   (if cfg.numDisplays > 1 then [Role.en2] else [])).foldl
    (fun acc r =>
      match acc with
      | none => none
      | some evs =>
        match close_gpio_pin r (env r) (fd r) with
        | none => none
        | some (evs', _) => some (evs ++ evs'))
    (some [])

/-! ## Backlight -/

/-- `lcdgpio_HD44780_backlight` (hd44780-gpio.c lines 355-360): writes the
backlight pin only when `p->backlight_bit > -1 && p->backlight_bit < 32`;
the level is `(state == BACKLIGHT_ON) ? 1 : 0`, with `on` standing for
`state == BACKLIGHT_ON`. Returns the list of `SET_GPIO` events performed. -/
def lcdgpio_HD44780_backlight (backlight_bit : Int) (isOn : Bool) : List Event :=
  if backlight_bit > -1 ∧ backlight_bit < 32 then
    [setGpio .backlight (if isOn then 1 else 0)]
  else
    []

/-- Modelled from the spec: the generic hd44780 driver (hd44780.c, not in
this repository's sources) invokes the backlight hook only when one was
registered, and `hd_init_gpio` registers `lcdgpio_HD44780_backlight` only
when a backlight is configured (`backlightHookInstalled`); with no hook
registered a SetBacklight request performs nothing. -/
def setBacklightDispatch (cfg : Config) (backlight_bit : Int) (isOn : Bool) :
    List Event :=
  if backlightHookInstalled cfg then lcdgpio_HD44780_backlight backlight_bit isOn
  else []

/-! ## Derived sampling points and projections -/

/-- The prefix of the `senddata` trace ending immediately after the
high-nibble drive step. -/
def hiDrivePre (m : Mode) (ch : Nat) : List Event :=
  rsSeg m ++ clearSeg ++ [.pause 50] ++ highSeg ch

/-- The prefix of the `senddata` trace ending immediately after the
low-nibble drive step. -/
def loDrivePre (numDisplays displayID : Nat) (m : Mode) (ch : Nat) : List Event :=
  hiDrivePre m ch ++ [.pause 50] ++ pulseSeg numDisplays displayID ++
  clearSeg ++ [.pause 50] ++ lowSeg ch

/-- First half of the `senddata` trace: everything up to and including the
enable pulse that latches the high nibble. -/
def hiHalf (numDisplays displayID : Nat) (m : Mode) (ch : Nat) : List Event :=
  rsSeg m ++ clearSeg ++ [.pause 50] ++ highSeg ch ++ [.pause 50] ++
  pulseSeg numDisplays displayID

/-- Second half of the `senddata` trace: the low nibble and its enable
pulse. -/
def loHalf (numDisplays displayID : Nat) (ch : Nat) : List Event :=
  clearSeg ++ [.pause 50] ++ lowSeg ch ++ [.pause 50] ++
  pulseSeg numDisplays displayID

/-- The close events that concern one role, in order. -/
def closeEventsOf (r : Role) (evs : List CloseEvent) : List CloseEvent :=
  evs.filter fun ev =>
    match ev with
    | .dirInput r' => r' = r
    | .closeFd r' => r' = r
    | .unexport r' => r' = r

/-! ## Helper lemmas -/

theorem applyTrace_append (s : PinState) (a b : List Event) :
    applyTrace s (a ++ b) = applyTrace (applyTrace s a) b := by
  simp [applyTrace]

theorem setGpioLevel_mask (ch k : Nat) :
    setGpioLevel (ch &&& 2 ^ k) = ch.testBit k := by
  rw [setGpioLevel, Nat.and_two_pow]
  cases h : ch.testBit k <;> simp [h, Nat.pos_pow_of_pos k (by norm_num : 0 < 2)]

theorem highSeg_eq (ch : Nat) :
    highSeg ch = [.set .d7 (ch.testBit 7), .set .d6 (ch.testBit 6),
      .set .d5 (ch.testBit 5), .set .d4 (ch.testBit 4)] := by
  have h7 := setGpioLevel_mask ch 7
  have h6 := setGpioLevel_mask ch 6
  have h5 := setGpioLevel_mask ch 5
  have h4 := setGpioLevel_mask ch 4
  norm_num at h7 h6 h5 h4
  simp [highSeg, setGpio, h7, h6, h5, h4]

theorem lowSeg_eq (ch : Nat) :
    lowSeg ch = [.set .d7 (ch.testBit 3), .set .d6 (ch.testBit 2),
      .set .d5 (ch.testBit 1), .set .d4 (ch.testBit 0)] := by
  have h3 := setGpioLevel_mask ch 3
  have h2 := setGpioLevel_mask ch 2
  have h1 := setGpioLevel_mask ch 1
  have h0 := setGpioLevel_mask ch 0
  norm_num at h3 h2 h1 h0
  simp [lowSeg, setGpio, h3, h2, h1, h0]

/-- An enable pulse leaves RS and the four data lines untouched. -/
theorem pulseSeg_preserves (numDisplays displayID : Nat) (s : PinState) :
    (applyTrace s (pulseSeg numDisplays displayID)).rs = s.rs ∧
    dataLines (applyTrace s (pulseSeg numDisplays displayID)) = dataLines s := by
  by_cases h1 : displayID = 1 ∨ displayID = 0 <;>
    by_cases h2 : displayID = 2 ∨ (numDisplays > 1 ∧ displayID = 0) <;>
      simp [pulseSeg, enSeg, h1, h2, applyTrace, applyEvent, setGpio,
        setGpioLevel, dataLines]

/-! ## Claims -/

/-- C1: for every 8-bit value and every mode, `lcdgpio_HD44780_senddata`
transmits the high nibble first: the trace decomposes so that each nibble
drive is preceded by a defensive clear of all four data lines, and sampling
the lines immediately after the high-nibble drive yields D7..D4 = bits 7..4
of `ch`, while sampling immediately after the low-nibble drive yields
D7..D4 = bits 3..0. -/
theorem C1_senddata_nibbles (numDisplays displayID : Nat) (m : Mode) (ch : Nat)
    (s : PinState) :
    lcdgpio_HD44780_senddata numDisplays displayID m ch =
      loDrivePre numDisplays displayID m ch ++ [.pause 50] ++
        pulseSeg numDisplays displayID ∧
    loDrivePre numDisplays displayID m ch =
      hiDrivePre m ch ++ [.pause 50] ++ pulseSeg numDisplays displayID ++
        clearSeg ++ [.pause 50] ++ lowSeg ch ∧
    hiDrivePre m ch = rsSeg m ++ clearSeg ++ [.pause 50] ++ highSeg ch ∧
    dataLines (applyTrace s (hiDrivePre m ch)) =
      (ch.testBit 7, ch.testBit 6, ch.testBit 5, ch.testBit 4) ∧
    dataLines (applyTrace s (loDrivePre numDisplays displayID m ch)) =
      (ch.testBit 3, ch.testBit 2, ch.testBit 1, ch.testBit 0) := by
  refine ⟨?_, rfl, rfl, ?_, ?_⟩
  · simp [lcdgpio_HD44780_senddata, loDrivePre, hiDrivePre]
  · cases m <;>
      simp [hiDrivePre, rsSeg, clearSeg, highSeg_eq, applyTrace, applyEvent,
        setGpio, setGpioLevel, dataLines]
  · rw [loDrivePre, show hiDrivePre m ch ++ [Event.pause 50] ++
      pulseSeg numDisplays displayID ++ clearSeg ++ [Event.pause 50] ++ lowSeg ch =
      (hiDrivePre m ch ++ [Event.pause 50] ++ pulseSeg numDisplays displayID) ++
      (clearSeg ++ [Event.pause 50] ++ lowSeg ch) by simp, applyTrace_append]
    simp [clearSeg, lowSeg_eq, applyTrace, applyEvent, setGpio, setGpioLevel,
      dataLines]

/-- C2: per `senddata` call the trace splits into a high-nibble half and a
low-nibble half; in each half the controller-1 Enable line is written
high-then-low (one pulse) exactly when `displayID` is 1 (First) or 0 (All),
and the Enable2 line is written high-then-low exactly when `displayID` is 2
(Second) or it is 0 (All) with two controllers configured; the projections
being equal to these lists means no other Enable activity occurs. -/
theorem C2_enable_pulses (numDisplays displayID : Nat) (m : Mode) (ch : Nat) :
    lcdgpio_HD44780_senddata numDisplays displayID m ch =
      hiHalf numDisplays displayID m ch ++ loHalf numDisplays displayID ch ∧
    writesTo .en (hiHalf numDisplays displayID m ch) =
      (if displayID = 1 ∨ displayID = 0 then [true, false] else []) ∧
    writesTo .en (loHalf numDisplays displayID ch) =
      (if displayID = 1 ∨ displayID = 0 then [true, false] else []) ∧
    writesTo .en2 (hiHalf numDisplays displayID m ch) =
      (if displayID = 2 ∨ (numDisplays > 1 ∧ displayID = 0) then [true, false] else []) ∧
    writesTo .en2 (loHalf numDisplays displayID ch) =
      (if displayID = 2 ∨ (numDisplays > 1 ∧ displayID = 0) then [true, false] else []) := by
  refine ⟨by simp [lcdgpio_HD44780_senddata, hiHalf, loHalf], ?_, ?_, ?_, ?_⟩ <;>
    by_cases h1 : displayID = 1 ∨ displayID = 0 <;>
      by_cases h2 : displayID = 2 ∨ (numDisplays > 1 ∧ displayID = 0) <;>
        cases m <;>
          simp [hiHalf, loHalf, rsSeg, clearSeg, highSeg, lowSeg, pulseSeg,
            enSeg, h1, h2, writesTo, setGpio, setGpioLevel]

/-- C6: `senddata` writes the Register-Select line exactly once, as the very
first event of the trace, at level low for Instruction mode and high
otherwise; since that is the only RS write, the level never changes for the
remainder of the transmission. -/
theorem C6_rs_once (numDisplays displayID : Nat) (m : Mode) (ch : Nat) :
    writesTo .rs (lcdgpio_HD44780_senddata numDisplays displayID m ch) =
      [if m = .instr then false else true] ∧
    (lcdgpio_HD44780_senddata numDisplays displayID m ch).head? =
      some (.set .rs (if m = .instr then false else true)) := by
  by_cases h1 : displayID = 1 ∨ displayID = 0 <;>
    by_cases h2 : displayID = 2 ∨ (numDisplays > 1 ∧ displayID = 0) <;>
      cases m <;>
        simp [lcdgpio_HD44780_senddata, rsSeg, clearSeg, highSeg, lowSeg,
          pulseSeg, enSeg, h1, h2, writesTo, setGpio, setGpioLevel]

/-- C10: when `senddata` returns, any Enable line it touched has been left
low: from any starting state, the final state has `en = false` whenever
controller 1 was addressed (`displayID` 1 or 0) and `en2 = false` whenever
controller 2 was addressed, while an untouched Enable line keeps its prior
level; moreover the last write on a touched Enable line is a write of 0. -/
theorem C10_enable_low_after (numDisplays displayID : Nat) (m : Mode) (ch : Nat)
    (s : PinState) :
    (applyTrace s (lcdgpio_HD44780_senddata numDisplays displayID m ch)).en =
      (if displayID = 1 ∨ displayID = 0 then false else s.en) ∧
    (applyTrace s (lcdgpio_HD44780_senddata numDisplays displayID m ch)).en2 =
      (if displayID = 2 ∨ (numDisplays > 1 ∧ displayID = 0) then false else s.en2) ∧
    (writesTo .en (lcdgpio_HD44780_senddata numDisplays displayID m ch)).getLast? =
      (if displayID = 1 ∨ displayID = 0 then some false else none) ∧
    (writesTo .en2 (lcdgpio_HD44780_senddata numDisplays displayID m ch)).getLast? =
      (if displayID = 2 ∨ (numDisplays > 1 ∧ displayID = 0) then some false else none) := by
  by_cases h1 : displayID = 1 ∨ displayID = 0 <;>
    by_cases h2 : displayID = 2 ∨ (numDisplays > 1 ∧ displayID = 0) <;>
      cases m <;>
        simp [lcdgpio_HD44780_senddata, rsSeg, clearSeg, highSeg, lowSeg,
          pulseSeg, enSeg, h1, h2, writesTo, setGpio, setGpioLevel,
          applyTrace, applyEvent]

/-- C9: `SET_GPIO` (modelled by `setGpio`) normalizes its level argument to a Boolean — it writes
the string "1" exactly for nonzero values (including masked bit values such
as `ch & 0x80 = 128`) and "0" exactly for zero — so the data-line drive
steps of `senddata`, which pass raw masked bytes, put the correct logic
levels (the individual bits of `ch`) on D7..D4. -/
theorem C9_set_gpio_normalize (v ch : Nat) :
    (setGpioStr v = "1" ↔ v ≠ 0) ∧
    (setGpioStr v = "0" ↔ v = 0) ∧
    setGpioStr (128 : Nat) = "1" ∧
    highSeg ch = [.set .d7 (ch.testBit 7), .set .d6 (ch.testBit 6),
      .set .d5 (ch.testBit 5), .set .d4 (ch.testBit 4)] ∧
    lowSeg ch = [.set .d7 (ch.testBit 3), .set .d6 (ch.testBit 2),
      .set .d5 (ch.testBit 1), .set .d4 (ch.testBit 0)] := by
  refine ⟨?_, ?_, by decide, highSeg_eq ch, lowSeg_eq ch⟩ <;>
    by_cases h : v = 0 <;> simp [setGpioStr, h]

/-- C3: evaluation of `setup_gpio_pin` at the inputs where the claim fails.
When the export file opens but the per-pin value file does not, the
function returns 0 (success) and stores a NULL handle instead of returning
-1; when the direction file does not open, the function does not return -1
either — it runs into `fprintf`/`fclose` on a NULL `FILE *` (undefined
behavior). Only an export-open failure yields the -1 result. -/
theorem C3_setup_gpio_pin_eval :
    setup_gpio_pin ⟨true, true, false⟩ = .retOk false ∧
    setup_gpio_pin ⟨true, true, false⟩ ≠ .retErr ∧
    setup_gpio_pin ⟨true, false, true⟩ = .undef ∧
    setup_gpio_pin ⟨true, false, true⟩ ≠ .retErr ∧
    setup_gpio_pin ⟨false, true, true⟩ = .retErr ∧
    setup_gpio_pin ⟨true, true, true⟩ = .retOk true := by
  decide

/-- C5 counterexample: releasing a pin that was never acquired is not a
harmless no-op, and release is not idempotent. For a never-acquired pin the
per-pin direction and unexport files do not exist, so both `fopen` calls
fail (environment `⟨false, false⟩`) and `close_gpio_pin` hits `fprintf` on
a NULL `FILE *` (`none` = undefined behavior); and after a successful
release the value handle is left dangling (`fdStale`), so a second release
`fclose`s it again (`none`). -/
theorem C5_close_counterexample :
    close_gpio_pin .en ⟨false, false⟩ .fdNull = none ∧
    close_gpio_pin .en ⟨true, true⟩ .fdOpen =
      some ([.dirInput .en, .closeFd .en, .unexport .en], .fdStale) ∧
    close_gpio_pin .en ⟨true, true⟩ .fdStale = none := by
  decide

/-- C5 amended: `close_gpio_pin` on a never-acquired pin (NULL value
handle) skips only the guarded `fclose` of the value handle — when it runs
to completion it still writes "in" to the direction file and the pin number
to the unexport file, and when either of those files cannot be opened (as
for a never-exported pin) the behavior is undefined rather than a silent
no-op. It is not idempotent: a successful release leaves the handle
dangling, and a release of a pin in that state always reaches undefined
behavior. -/
theorem C5_close_amended (r : Role) (e : CloseEnv) :
    (close_gpio_pin r e .fdNull = none ∨
      close_gpio_pin r e .fdNull = some ([.dirInput r, .unexport r], .fdNull)) ∧
    ((e.directionOk = false ∨ e.unexportOk = false) →
      close_gpio_pin r e .fdNull = none) ∧
    close_gpio_pin r e .fdStale = none ∧
    (∀ p : List CloseEvent × FdStatus,
      close_gpio_pin r e .fdOpen = some p → p.2 = .fdStale) := by
  cases e with
  | mk dOk uOk => cases dOk <;> cases uOk <;> simp [close_gpio_pin]

/-- C5 amended, witness: the amended theorem applied at controller-1 Enable
with both control files unopenable, discharging its hypotheses at that
input. -/
theorem C5_close_amended_witness :
    close_gpio_pin .en ⟨false, true⟩ .fdNull = none ∧
    close_gpio_pin .en ⟨false, true⟩ .fdStale = none ∧
    (([CloseEvent.dirInput .en, .closeFd .en, .unexport .en],
      FdStatus.fdStale) : List CloseEvent × FdStatus).2 = .fdStale := by
  refine ⟨(C5_close_amended .en ⟨false, true⟩).2.1 (by decide),
    (C5_close_amended .en ⟨false, true⟩).2.2.1,
    (C5_close_amended .en ⟨true, true⟩).2.2.2 _ (by decide)⟩

/-- When every pin in the list sets up with a `0` return, the acquisition
loop succeeds and claims exactly those pins, in order. -/
theorem acquireSeq_all_ok (pins : Role → PinEnv) (l : List Role)
    (h : ∀ r ∈ l, ∃ b, setup_gpio_pin (pins r) = .retOk b) :
    acquireSeq pins l = (.ok, l) := by
  induction l with
  | nil => rfl
  | cons a t ih =>
    obtain ⟨b, hb⟩ := h a (List.mem_cons_self a t)
    simp [acquireSeq, hb, ih fun r' hr' => h r' (List.mem_cons_of_mem _ hr')]

/-- When the pins before `r` set up successfully and `r` fails with `-1`,
the acquisition loop aborts with `-1` and exactly the earlier pins stay
claimed. -/
theorem acquireSeq_err (pins : Role → PinEnv) (l1 : List Role) (r : Role)
    (l2 : List Role)
    (h1 : ∀ r' ∈ l1, ∃ b, setup_gpio_pin (pins r') = .retOk b)
    (hr : setup_gpio_pin (pins r) = .retErr) :
    acquireSeq pins (l1 ++ r :: l2) = (.err, l1) := by
  induction l1 with
  | nil => simp [acquireSeq, hr]
  | cons a t ih =>
    obtain ⟨b, hb⟩ := h1 a (List.mem_cons_self a t)
    simp [acquireSeq, hb, ih fun r' hr' => h1 r' (List.mem_cons_of_mem _ hr')]

/-- C4: `hd_init_gpio` acquires exactly the pins required by the active
configuration, in the fixed order given by `requiredRoles` (EN, RS, D7, D6,
D5, D4, then backlight only if configured, then EN2 only with two
controllers); when every setup succeeds, the claimed list is exactly that
list; when a setup returns `-1`, initialization returns `-1` immediately
and the pins claimed before the failure remain claimed (no rollback); a
failed allocation of the pin map also returns `-1` with nothing claimed. -/
theorem C4_init_acquisition (cfg : Config) (pins : Role → PinEnv) :
    ((∀ r ∈ requiredRoles cfg, ∃ b, setup_gpio_pin (pins r) = .retOk b) →
      hd_init_gpio true cfg pins = (.ok, requiredRoles cfg)) ∧
    (∀ (l1 : List Role) (r : Role) (l2 : List Role),
      requiredRoles cfg = l1 ++ r :: l2 →
      (∀ r' ∈ l1, ∃ b, setup_gpio_pin (pins r') = .retOk b) →
      setup_gpio_pin (pins r) = .retErr →
      hd_init_gpio true cfg pins = (.err, l1)) ∧
    hd_init_gpio false cfg pins = (.err, []) := by
  refine ⟨fun h => ?_, fun l1 r l2 heq h1 hr => ?_, by simp [hd_init_gpio]⟩
  · simp [hd_init_gpio, acquireSeq_all_ok pins _ h]
  · simp [hd_init_gpio, heq, acquireSeq_err pins l1 r l2 h1 hr]

/-- C4 witness: a two-controller, backlit configuration. With every pin
environment fully available the initialization claims all eight roles in
order; with the export of D7 refused it aborts with error after claiming
only EN and RS. -/
theorem C4_init_acquisition_witness :
    hd_init_gpio true ⟨2, true⟩ (fun _ => ⟨true, true, true⟩) =
      (.ok, [.en, .rs, .d7, .d6, .d5, .d4, .backlight, .en2]) ∧
    hd_init_gpio true ⟨2, true⟩
        (fun r => if r = .d7 then ⟨false, true, true⟩ else ⟨true, true, true⟩) =
      (.err, [.en, .rs]) := by
  constructor
  · have h := (C4_init_acquisition ⟨2, true⟩ fun _ => ⟨true, true, true⟩).1
      (by decide)
    rw [(by decide : requiredRoles ⟨2, true⟩ =
      [.en, .rs, .d7, .d6, .d5, .d4, .backlight, .en2])] at h
    exact h
  · exact (C4_init_acquisition ⟨2, true⟩ _).2.1 [.en, .rs] .d7
      [.d6, .d5, .d4, .backlight, .en2] (by decide) (by decide) (by decide)

/-- C7: `lcdgpio_HD44780_backlight` writes the backlight pin high for state
on and low for state off exactly when the bound identifier satisfies
`backlight_bit > -1 && backlight_bit < 32`; for an out-of-range identifier
any sequence of calls performs no pin writes; and on a configuration with
no backlight bound, no hook is registered, so any sequence of SetBacklight
requests performs no pin writes at all. -/
theorem C7_backlight_guard (bit : Int) (isOn : Bool) (cfg : Config) :
    (bit > -1 → bit < 32 →
      lcdgpio_HD44780_backlight bit isOn = [.set .backlight isOn]) ∧
    (¬ (bit > -1 ∧ bit < 32) →
      ∀ states : List Bool,
        states.flatMap (fun st => lcdgpio_HD44780_backlight bit st) = []) ∧
    (cfg.haveBacklight = false →
      ∀ states : List Bool,
        states.flatMap (fun st => setBacklightDispatch cfg bit st) = []) := by
  refine ⟨fun h1 h2 => ?_, fun h states => ?_, fun h states => ?_⟩
  · cases isOn <;>
      simp [lcdgpio_HD44780_backlight, h1, h2, setGpio, setGpioLevel]
  · simp [lcdgpio_HD44780_backlight, h]
  · simp [setBacklightDispatch, backlightHookInstalled, h]

/-- C7 witness: the theorem at the default backlight pin 17 (in range, both
states), at the out-of-range identifier 40, and at a one-controller
configuration with no backlight. -/
theorem C7_backlight_guard_witness :
    lcdgpio_HD44780_backlight 17 true = [.set .backlight true] ∧
    lcdgpio_HD44780_backlight 17 false = [.set .backlight false] ∧
    [false, true].flatMap (fun st => lcdgpio_HD44780_backlight 40 st) = [] ∧
    [false, true].flatMap (fun st => setBacklightDispatch ⟨1, false⟩ 17 st) = [] := by
  exact ⟨(C7_backlight_guard 17 true ⟨1, false⟩).1 (by decide) (by decide),
    (C7_backlight_guard 17 false ⟨1, false⟩).1 (by decide) (by decide),
    (C7_backlight_guard 40 true ⟨1, false⟩).2.1 (by decide) _,
    (C7_backlight_guard 17 true ⟨1, false⟩).2.2 rfl _⟩

/-- C8: after a successful initialization (all required value handles open,
all per-pin control files openable), `lcdgpio_HD44780_close` releases
exactly the pins acquired for the active configuration — EN, RS, D7, D6,
D5, D4, plus backlight if configured and EN2 with two controllers — and
for each released pin the direction-to-input write precedes the unexport
write. -/
theorem C8_shutdown_release (cfg : Config) (env : Role → CloseEnv)
    (fd : Role → FdStatus) (henv : ∀ r, env r = ⟨true, true⟩)
    (hfd : ∀ r, fd r = .fdOpen) :
    lcdgpio_HD44780_close cfg env fd =
      some ((requiredRoles cfg).flatMap fun r =>
        [.dirInput r, .closeFd r, .unexport r]) ∧
    ∀ r ∈ requiredRoles cfg,
      closeEventsOf r ((requiredRoles cfg).flatMap fun r' =>
          [.dirInput r', .closeFd r', .unexport r']) =
        [.dirInput r, .closeFd r, .unexport r] := by
  constructor
  · cases hcb : cfg.haveBacklight <;>
      by_cases hn : cfg.numDisplays > 1 <;>
        simp [lcdgpio_HD44780_close, requiredRoles, hcb, hn, henv, hfd,
          close_gpio_pin]
  · cases hcb : cfg.haveBacklight <;>
      by_cases hn : cfg.numDisplays > 1 <;>
        · simp only [requiredRoles, hcb, hn]
          decide

/-- C8 witness: the theorem at the two-controller, backlit configuration
with every control file openable and every value handle open. -/
theorem C8_shutdown_release_witness :
    lcdgpio_HD44780_close ⟨2, true⟩ (fun _ => ⟨true, true⟩) (fun _ => .fdOpen) =
      some ((requiredRoles ⟨2, true⟩).flatMap fun r =>
        [.dirInput r, .closeFd r, .unexport r]) ∧
    ∀ r ∈ requiredRoles ⟨2, true⟩,
      closeEventsOf r ((requiredRoles ⟨2, true⟩).flatMap fun r' =>
          [.dirInput r', .closeFd r', .unexport r']) =
        [.dirInput r, .closeFd r, .unexport r] :=
  C8_shutdown_release ⟨2, true⟩ _ _ (fun _ => rfl) (fun _ => rfl)

end HD44780Gpio
